import Mathlib

/-!
Verification of the ElevenLabs TTS plugin (`ovos_tts_plugin_elevenlabs/__init__.py`).

The development shallowly embeds the plugin's configuration resolvers, the
`get_tts` synthesis entry point and the validator methods as pure Lean
functions.  Remote interactions (the ElevenLabs client) are modelled by
explicit parameters: the outcome of `voices.get_all()` is an
`Except String (List String)` (the list of available voice ids, or the raised
error), and the audio stream returned by a synthesis call is a list of
`Except String (List Nat)` (byte chunks, where an `error` entry models an
exception raised while iterating the stream).  Remote calls issued by a piece
of code are recorded in an explicit `RemoteCall` trace.
-/

/-- Kinds of remote ElevenLabs API calls the plugin can issue. -/
inductive RemoteCall where
  | listVoices
  | listModels
  | convert
  | convertStream
deriving DecidableEq, Repr

/-- Default model id (`TTSConfiguration.DEFAULT_MODEL`). -/
def TTSConfiguration.DEFAULT_MODEL : String := "eleven_multilingual_v2"

/-- Default voice id "George" (`TTSConfiguration.DEFAULT_VOICE_ID`). -/
def TTSConfiguration.DEFAULT_VOICE_ID : String := "JBFqnCBsd6RMkjVDRZzb"

/-- Default stability (`TTSConfiguration.DEFAULT_STABILITY = 0.5`). -/
def TTSConfiguration.DEFAULT_STABILITY : Rat := 1 / 2

/-- Default similarity boost (`TTSConfiguration.DEFAULT_SIMILARITY = 0.75`). -/
def TTSConfiguration.DEFAULT_SIMILARITY : Rat := 3 / 4

/-- Default style (`TTSConfiguration.DEFAULT_STYLE = 0.0`). -/
def TTSConfiguration.DEFAULT_STYLE : Rat := 0

/-- Default speaker boost (`TTSConfiguration.DEFAULT_SPEAKER_BOOST = True`). -/
def TTSConfiguration.DEFAULT_SPEAKER_BOOST : Bool := true

/-- Default output format (`TTSConfiguration.DEFAULT_OUTPUT_FORMAT`). -/
def TTSConfiguration.DEFAULT_OUTPUT_FORMAT : String := "mp3_44100_128"

/-- Default streaming flag (`TTSConfiguration.DEFAULT_USE_STREAMING = False`). -/
def TTSConfiguration.DEFAULT_USE_STREAMING : Bool := false

/-- The class-level `available_languages` set of `ElevenLabsTTSPlugin`,
embedded as the list of its 32 members. -/
def available_languages : List String :=
  ["en", "es", "fr", "de", "it", "pt", "pl", "hi",
   "ar", "bn", "cs", "da", "nl", "fi", "el", "hu",
   "id", "ja", "ko", "ms", "no", "ro", "ru", "sk",
   "sv", "ta", "tr", "uk", "ur", "vi", "zh", "bg"]

/-- The plugin's configuration mapping, restricted to the keys the plugin
reads.  `none` models an absent key; `some v` a present value (which for
string keys may be the empty string, which Python treats as falsy). -/
structure Config where
  api_key : Option String
  voice_id : Option String
  model_id : Option String
  use_streaming : Option Bool
  output_format : Option String
  stability : Option Rat
  similarity_boost : Option Rat
  style : Option Rat
  speaker_boost : Option Bool

/-- The `VoiceSettings` value object passed to the synthesis call. -/
structure VoiceSettings where
  stability : Rat
  similarity_boost : Rat
  style : Rat
  use_speaker_boost : Bool
deriving DecidableEq

/-- Embedding of the `api_key` property:
`api_key = self.config.get("api_key") or os.getenv("ELEVENLABS_API_KEY")`,
then `if not api_key: raise ValueError(...)`.  Python's `or` takes the first
truthy operand, and both an absent value and the empty string are falsy.
The second component is the list of remote calls issued (none). -/
def api_key_resolve (cfg_api_key env_api_key : Option String) :
    Except String String × List RemoteCall :=
  let v : Option String :=
    match cfg_api_key with
    | some s => if s = "" then env_api_key else some s
    | none => env_api_key
  (match v with
   | some s =>
       if s = "" then
         .error "ElevenLabs API key not found in config or environment"
       else .ok s
   | none => .error "ElevenLabs API key not found in config or environment", [])

/-- Embedding of the `voice_id` property.  The property body first calls
`self.client.voices.get_all()` purely to emit a debug log of the available
voices, swallowing any exception (`except ... LOG.warning`); the fetched
response `voicesResp` therefore never influences the returned value.  The
value is the configured `voice_id` if truthy, else the fixed default.  The
second component records the single `listVoices` remote call the property
issues on every access. -/
def voice_id_resolve (cfg_voice_id : Option String)
    (voicesResp : Except String (List String)) : String × List RemoteCall :=
  let value : String :=
    match cfg_voice_id with
    | some s => if s = "" then TTSConfiguration.DEFAULT_VOICE_ID else s
    | none => TTSConfiguration.DEFAULT_VOICE_ID
  (value, [RemoteCall.listVoices])

/-- Embedding of the `model_id` property:
`self.config.get("model_id", TTSConfiguration.DEFAULT_MODEL)`. -/
def model_id_resolve (cfg_model_id : Option String) :
    String × List RemoteCall :=
  (cfg_model_id.getD TTSConfiguration.DEFAULT_MODEL, [])

/-- Embedding of the `use_streaming` property:
`self.config.get("use_streaming", TTSConfiguration.DEFAULT_USE_STREAMING)`. -/
def use_streaming_resolve (cfg_use_streaming : Option Bool) :
    Bool × List RemoteCall :=
  (cfg_use_streaming.getD TTSConfiguration.DEFAULT_USE_STREAMING, [])

/-- Embedding of the `output_format` property:
`self.config.get("output_format", TTSConfiguration.DEFAULT_OUTPUT_FORMAT)`. -/
def output_format_resolve (cfg_output_format : Option String) :
    String × List RemoteCall :=
  (cfg_output_format.getD TTSConfiguration.DEFAULT_OUTPUT_FORMAT, [])

/-- Embedding of the `voice_settings` property: four independently defaulted
config lookups, no remote calls. -/
def voice_settings_resolve (stability similarity_boost style : Option Rat)
    (speaker_boost : Option Bool) : VoiceSettings × List RemoteCall :=
  (⟨stability.getD TTSConfiguration.DEFAULT_STABILITY,
    similarity_boost.getD TTSConfiguration.DEFAULT_SIMILARITY,
    style.getD TTSConfiguration.DEFAULT_STYLE,
    speaker_boost.getD TTSConfiguration.DEFAULT_SPEAKER_BOOST⟩, [])

/-- Embedding of `ElevenLabsTTSPlugin.__init__`: the constructor builds the
client with `ElevenLabs(api_key=self.api_key)`; the `api_key` property raises
when no key is configured, and the surrounding `except` logs and re-raises. -/
def plugin_init (cfg_api_key env_api_key : Option String) :
    Except String Unit :=
  match (api_key_resolve cfg_api_key env_api_key).1 with
  | .ok _ => .ok ()
  | .error e => .error e

/-- The character list of the pattern `".wav"`. -/
def wavExt : List Char := ['.', 'w', 'a', 'v']

/-- The character list of the replacement `".mp3"`. -/
def mp3Ext : List Char := ['.', 'm', 'p', '3']

/-- Embedding of the call `wav_file.replace(".wav", ".mp3")`.  Python's
`str.replace` scans left to right and replaces each non-overlapping
occurrence of the pattern: if the next four characters are `.wav` it emits
`.mp3` and continues after them, otherwise it copies one character. -/
def replaceWav : List Char → List Char
  | '.' :: 'w' :: 'a' :: 'v' :: rest => mp3Ext ++ replaceWav rest
  | c :: rest => c :: replaceWav rest
  | [] => []

/-- Embedding of the chunk-writing loop of `get_tts`:
`for chunk in audio_stream: if chunk: f.write(chunk); bytes_written += len(chunk)`.
The stream is a list of byte chunks, where an `error` entry models an
exception raised while iterating the stream.  Returns the bytes written to
the file, the final `bytes_written` counter, and the raised error if any
(writes made before the failure persist: no partial-file cleanup). -/
def writeChunks : List (Except String (List Nat)) → List Nat × Nat × Option String
  | [] => ([], 0, none)
  | .error e :: _ => ([], 0, some e)
  | .ok c :: rest =>
    let r := writeChunks rest
    if c.isEmpty then r else (c ++ r.1, c.length + r.2.1, r.2.2)

/-- Observable outcome of a `get_tts` call: the remote calls issued in order,
the destination file (`none` when the file was never opened), the final value
of the `bytes_written` counter, and the returned pair or raised error. -/
structure TTSOutcome where
  trace : List RemoteCall
  file : Option (List Nat)
  bytes_written : Nat
  result : Except String (String × Option String)

/-- Embedding of `ElevenLabsTTSPlugin.get_tts`.  `voicesResult` is the
outcome of `self.client.voices.get_all()` (shared by every fetch within the
call), `stream` the chunk sequence produced by the chosen synthesis call.
Control flow as in the source: compute `out_path` by replacing `".wav"` with
`".mp3"`; log (one `voice_id` property access, hence one `listVoices` call);
fetch the voice list and validate membership of the resolved voice id
(re-raising a fetch failure, and raising `ValueError` on an absent id, both
before any synthesis call and before the output file is opened); branch on
`use_streaming` to issue exactly one synthesis call; write the stream to the
file.  On success returns `(out_path, None)`; every failure is re-raised. -/
def get_tts (sentence wav_file : String) (cfg : Config)
    (voicesResult : Except String (List String))
    (stream : List (Except String (List Nat))) : TTSOutcome :=
  let out_path : String := ⟨replaceWav wav_file.data⟩
  let r1 := voice_id_resolve cfg.voice_id voicesResult
  match voicesResult with
  | .error e =>
      ⟨r1.2 ++ [RemoteCall.listVoices], none, 0, .error e⟩
  | .ok voices =>
      let r2 := voice_id_resolve cfg.voice_id voicesResult
      if r2.1 ∈ voices then
        let synth : RemoteCall :=
          if (use_streaming_resolve cfg.use_streaming).1 then
            RemoteCall.convertStream
          else RemoteCall.convert
        let r4 := voice_id_resolve cfg.voice_id voicesResult
        let w := writeChunks stream
        match w.2.2 with
        | some e =>
            ⟨r1.2 ++ [RemoteCall.listVoices] ++ r2.2 ++ r4.2 ++ [synth],
              some w.1, w.2.1, .error e⟩
        | none =>
            ⟨r1.2 ++ [RemoteCall.listVoices] ++ r2.2 ++ r4.2 ++ [synth],
              some w.1, w.2.1, .ok (out_path, none)⟩
      else
        let r3 := voice_id_resolve cfg.voice_id voicesResult
        ⟨r1.2 ++ [RemoteCall.listVoices] ++ r2.2 ++ r3.2, none, 0,
          .error ("Voice ID " ++ r3.1 ++ " not found in available voices")⟩

/-- Embedding of `ElevenLabsTTSValidator.validate_voice`: fetch the voice
list (`voicesResult`, re-raising a fetch failure), collect the voice ids and
raise unless the resolved voice id `vid` is among them. -/
def validate_voice (voicesResult : Except String (List String))
    (vid : String) : Except String Unit :=
  match voicesResult with
  | .error e => .error e
  | .ok voice_ids =>
      if vid ∈ voice_ids then .ok ()
      else .error ("Voice ID " ++ vid ++ " not found in available voices")

/-- Embedding of `self.tts.lang.split('-')[0].lower()`: the characters before
the first hyphen, lower-cased. -/
def primary_subtag (lang : String) : String :=
  ⟨(lang.data.takeWhile (fun c => c != '-')).map Char.toLower⟩

/-- Embedding of `ElevenLabsTTSValidator.validate_lang`: raise `ValueError`
unless the primary subtag of the configured locale is a supported language. -/
def validate_lang (lang : String) : Except String Unit :=
  if primary_subtag lang ∈ available_languages then .ok ()
  else .error ("Language " ++ lang ++ " not supported")

/-- The all-defaults configuration (an empty config mapping). -/
def cfgDefault : Config := ⟨none, none, none, none, none, none, none, none, none⟩

/-! ### List helper lemmas -/

/-- A suffix equals the drop of its host at the length difference. -/
theorem isSuffix_drop_eq {α : Type} {l₁ l₂ : List α} (h : l₁ <:+ l₂) :
    l₂.drop (l₂.length - l₁.length) = l₁ := by
  obtain ⟨t, rfl⟩ := h
  simp

/-- A suffix of an append that fits in the right part is a suffix of it. -/
theorem isSuffix_of_append {α : Type} {l a b : List α} (h : l <:+ a ++ b)
    (hl : l.length ≤ b.length) : l <:+ b := by
  obtain ⟨t, ht⟩ := h
  have hlen : t.length + l.length = a.length + b.length := by
    simpa using congrArg List.length ht
  refine ⟨t.drop a.length, ?_⟩
  have hb : b = (t ++ l).drop a.length := by
    rw [ht]; exact (List.drop_left a b).symm
  rw [hb, List.drop_append_eq_append_drop, Nat.sub_eq_zero_of_le (by omega),
    List.drop_zero]

/-- A suffix stays a suffix after extending the host on the left. -/
theorem isSuffix_append_left {α : Type} {l b : List α} (a : List α)
    (h : l <:+ b) : l <:+ a ++ b := by
  obtain ⟨t, rfl⟩ := h
  exact ⟨a ++ t, by simp⟩

/-- A suffix stays a suffix after consing an element onto the host. -/
theorem isSuffix_cons {α : Type} {l r : List α} (c : α) (h : l <:+ r) :
    l <:+ c :: r := by
  obtain ⟨t, rfl⟩ := h
  exact ⟨c :: t, rfl⟩

/-! ### Lemmas about `replaceWav` -/

/-- Auxiliary strong induction: a character list ending in `".wav"` is mapped
by `replaceWav` to a list ending in `".mp3"`. -/
theorem replaceWav_suffix_aux :
    ∀ (n : Nat) (s : List Char), s.length = n → wavExt <:+ s →
      mp3Ext <:+ replaceWav s := by
  intro n
  induction n using Nat.strong_induction_on with
  | _ n ih =>
    intro s hlen h
    rw [replaceWav.eq_def]
    split
    · rename_i rest
      rcases rest with _ | ⟨a, rest₂⟩
      · simp [replaceWav]
      rcases rest₂ with _ | ⟨b, rest₃⟩
      · have hd := isSuffix_drop_eq h
        simp [wavExt] at hd
      rcases rest₃ with _ | ⟨c, rest₄⟩
      · have hd := isSuffix_drop_eq h
        simp [wavExt] at hd
      rcases rest₄ with _ | ⟨d, rest₅⟩
      · have hd := isSuffix_drop_eq h
        simp [wavExt] at hd
      · have hsub : wavExt <:+ (a :: b :: c :: d :: rest₅) := by
          have hfull :
              ('.' :: 'w' :: 'a' :: 'v' :: a :: b :: c :: d :: rest₅ : List Char)
                = wavExt ++ (a :: b :: c :: d :: rest₅) := by simp [wavExt]
          rw [hfull] at h
          exact isSuffix_of_append h (by simp [wavExt])
        have hlt : (a :: b :: c :: d :: rest₅).length < n := by
          simp at hlen ⊢
          omega
        have hIH := ih _ hlt _ rfl hsub
        exact isSuffix_append_left mp3Ext hIH
    · rename_i c rest hne
      obtain ⟨t, ht⟩ := h
      rcases t with _ | ⟨x, t'⟩
      · exfalso
        simp only [List.nil_append] at ht
        have ht' : ('.' :: 'w' :: 'a' :: 'v' :: [] : List Char) = c :: rest := ht
        injection ht' with h₁ h₂
        exact hne [] h₁.symm h₂.symm
      · rw [List.cons_append] at ht
        injection ht with h₁ h₂
        have hIH := ih rest.length (by simp at hlen; omega) rest rfl ⟨t', h₂⟩
        exact isSuffix_cons c hIH
    · obtain ⟨t, ht⟩ := h
      have := congrArg List.length ht
      simp [wavExt] at this

/-- A character list ending in `".wav"` is mapped by `replaceWav` to a list
ending in `".mp3"`. -/
theorem replaceWav_wav_suffix {s : List Char} (h : wavExt <:+ s) :
    mp3Ext <:+ replaceWav s :=
  replaceWav_suffix_aux s.length s rfl h

/-- A character list with no occurrence of `".wav"` is unchanged. -/
theorem replaceWav_of_no_occurrence :
    ∀ {s : List Char}, ¬ wavExt <:+: s → replaceWav s = s := by
  intro s
  induction s with
  | nil => intro _; rfl
  | cons c rest ihr =>
    intro h
    rw [replaceWav.eq_def]
    split
    · rename_i rest' heq
      exact absurd ⟨[], rest', by rw [heq]; rfl⟩ h
    · rename_i c' rest'' hne heq
      injection heq with h₁ h₂
      subst h₁; subst h₂
      rw [ihr fun hocc => h ((List.infix_cons_iff).mpr (Or.inr hocc))]
    · rename_i heq
      exact absurd heq (List.cons_ne_nil c rest)

/-- When `".wav"` does not occur in `stem`, replacing in `stem ++ ".wav"`
changes only the trailing suffix: the result is `stem ++ ".mp3"`. -/
theorem replaceWav_stem :
    ∀ (stem : List Char), ¬ wavExt <:+: stem →
      replaceWav (stem ++ wavExt) = stem ++ mp3Ext := by
  intro stem
  induction stem with
  | nil => intro _; rfl
  | cons c stem' ihs =>
    intro h
    rw [List.cons_append, replaceWav.eq_def]
    split
    · rename_i rest' heq
      exfalso
      rcases stem' with _ | ⟨a, stem₂⟩
      · simp [wavExt] at heq
      rcases stem₂ with _ | ⟨b, stem₃⟩
      · simp [wavExt] at heq
      rcases stem₃ with _ | ⟨d, stem₄⟩
      · simp [wavExt] at heq
      · have heq' : c :: a :: b :: d :: (stem₄ ++ wavExt)
            = '.' :: 'w' :: 'a' :: 'v' :: rest' := by
          simpa [wavExt] using heq
        injection heq' with e₁ heq'
        injection heq' with e₂ heq'
        injection heq' with e₃ heq'
        injection heq' with e₄ heq'
        subst e₁; subst e₂; subst e₃; subst e₄
        exact h ⟨[], stem₄, by simp [wavExt]⟩
    · rename_i c' rest'' hne heq
      injection heq with h₁ h₂
      subst h₁
      rw [← h₂, ihs fun hocc => h ((List.infix_cons_iff).mpr (Or.inr hocc))]
      simp
    · rename_i heq
      exact absurd heq (List.cons_ne_nil c _)

/-! ### Lemmas about `writeChunks` and `get_tts` -/

/-- On a stream of successful chunks, the file content is the concatenation
of the non-empty chunks in order, the byte counter is their total length,
and no error is raised. -/
theorem writeChunks_map_ok (cs : List (List Nat)) :
    writeChunks (cs.map Except.ok)
      = ((cs.filter (fun c => !c.isEmpty)).flatten,
         ((cs.filter (fun c => !c.isEmpty)).map List.length).sum, none) := by
  induction cs with
  | nil => rfl
  | cons c cs ihc =>
    by_cases hc : c.isEmpty
    · simp [writeChunks, List.filter_cons, hc, ihc]
    · simp [writeChunks, List.filter_cons, hc, ihc]

/-- A stream failing after the chunks `cs` leaves the writes made so far in
the file, keeps the counter at the bytes written so far, and reports the
error. -/
theorem writeChunks_with_error (cs : List (List Nat)) (e : String)
    (rest : List (Except String (List Nat))) :
    writeChunks (cs.map Except.ok ++ .error e :: rest)
      = ((cs.filter (fun c => !c.isEmpty)).flatten,
         ((cs.filter (fun c => !c.isEmpty)).map List.length).sum, some e) := by
  induction cs with
  | nil => rfl
  | cons c cs ihc =>
    by_cases hc : c.isEmpty
    · simp [writeChunks, List.filter_cons, hc, ihc]
    · simp [writeChunks, List.filter_cons, hc, ihc]

/-- Unfolding of `get_tts` when the voice-list fetch raises: the error is
re-raised unmodified, no synthesis call is issued and no file is created. -/
theorem get_tts_fetch_error (sentence wav_file : String) (cfg : Config)
    (e : String) (stream : List (Except String (List Nat))) :
    get_tts sentence wav_file cfg (.error e) stream
      = ⟨[RemoteCall.listVoices, RemoteCall.listVoices], none, 0, .error e⟩ := by
  simp [get_tts, voice_id_resolve]

/-- Unfolding of `get_tts` when the resolved voice id is absent from the
fetched voice list: a `ValueError` is raised, no synthesis call is issued and
no file is created. -/
theorem get_tts_invalid_voice (sentence wav_file : String) (cfg : Config)
    (voices : List String) (stream : List (Except String (List Nat)))
    (hmem : (voice_id_resolve cfg.voice_id (.ok voices)).1 ∉ voices) :
    get_tts sentence wav_file cfg (.ok voices) stream
      = ⟨[RemoteCall.listVoices, RemoteCall.listVoices, RemoteCall.listVoices,
          RemoteCall.listVoices], none, 0,
          .error ("Voice ID " ++ (voice_id_resolve cfg.voice_id (.ok voices)).1
            ++ " not found in available voices")⟩ := by
  simp only [get_tts]
  rw [if_neg hmem]
  simp [voice_id_resolve]

/-- Unfolding of `get_tts` when the voice id is valid and the stream write
loop finishes without error. -/
theorem get_tts_success (sentence wav_file : String) (cfg : Config)
    (voices : List String) (stream : List (Except String (List Nat)))
    (hmem : (voice_id_resolve cfg.voice_id (.ok voices)).1 ∈ voices)
    (hok : (writeChunks stream).2.2 = none) :
    get_tts sentence wav_file cfg (.ok voices) stream
      = ⟨[RemoteCall.listVoices, RemoteCall.listVoices, RemoteCall.listVoices,
          RemoteCall.listVoices,
          if (use_streaming_resolve cfg.use_streaming).1 then
            RemoteCall.convertStream else RemoteCall.convert],
          some (writeChunks stream).1, (writeChunks stream).2.1,
          .ok (⟨replaceWav wav_file.data⟩, none)⟩ := by
  simp only [get_tts]
  rw [if_pos hmem]
  simp [voice_id_resolve, hok]

/-- Unfolding of `get_tts` when the voice id is valid but iterating the
stream raises: the synthesis call was issued, the writes made before the
failure persist in the file, and the error is re-raised unmodified. -/
theorem get_tts_stream_error (sentence wav_file : String) (cfg : Config)
    (voices : List String) (stream : List (Except String (List Nat)))
    (e : String)
    (hmem : (voice_id_resolve cfg.voice_id (.ok voices)).1 ∈ voices)
    (herr : (writeChunks stream).2.2 = some e) :
    get_tts sentence wav_file cfg (.ok voices) stream
      = ⟨[RemoteCall.listVoices, RemoteCall.listVoices, RemoteCall.listVoices,
          RemoteCall.listVoices,
          if (use_streaming_resolve cfg.use_streaming).1 then
            RemoteCall.convertStream else RemoteCall.convert],
          some (writeChunks stream).1, (writeChunks stream).2.1,
          .error e⟩ := by
  simp only [get_tts]
  rw [if_pos hmem]
  simp [voice_id_resolve, herr]

/-- Shape of a successful `get_tts` result: the returned path is the
suggested path with `".wav"` replaced by `".mp3"`, and the error slot is
`none`. -/
theorem get_tts_ok_shape (sentence wav_file : String) (cfg : Config)
    (voicesResult : Except String (List String))
    (stream : List (Except String (List Nat))) (p : String) (err : Option String)
    (hres : (get_tts sentence wav_file cfg voicesResult stream).result
      = .ok (p, err)) :
    p = ⟨replaceWav wav_file.data⟩ ∧ err = none := by
  rcases voicesResult with e | voices
  · rw [get_tts_fetch_error] at hres
    exact absurd hres (by simp)
  · by_cases hmem : (voice_id_resolve cfg.voice_id (.ok voices)).1 ∈ voices
    · cases herr : (writeChunks stream).2.2 with
      | none =>
        rw [get_tts_success _ _ _ _ _ hmem herr] at hres
        have h := hres
        simp only [Except.ok.injEq, Prod.mk.injEq] at h
        exact ⟨h.1.symm, h.2.symm⟩
      | some e =>
        rw [get_tts_stream_error _ _ _ _ _ e hmem herr] at hres
        exact absurd hres (by simp)
    · rw [get_tts_invalid_voice _ _ _ _ _ hmem] at hres
      exact absurd hres (by simp)

/-- An auxiliary configuration whose configured voice id is `"badvoice"`. -/
def cfgBadVoice : Config :=
  ⟨none, some "badvoice", none, none, none, none, none, none, none⟩

/-! ### Claim theorems -/

/-- C1, counterexample: for the suggested path `"out.ogg"` (which contains no
`".wav"`), a successful `get_tts` call returns `"out.ogg"` unchanged, which
does not end in the extension `"mp3"` — refuting the claim that the returned
path ends in `"mp3"` for every suggested path. -/
theorem C1_counterexample :
    (get_tts "hello" "out.ogg" cfgDefault
        (.ok [TTSConfiguration.DEFAULT_VOICE_ID]) [.ok [1]]).result
      = .ok ("out.ogg", none)
    ∧ ¬ (['m', 'p', '3'] <:+ "out.ogg".data) :=
  ⟨rfl, by decide⟩

/-- C1, amended: on every successful `get_tts` call, the returned output path
ends in `".mp3"` whenever the suggested path ends in `".wav"`; a suggested
path with no occurrence of `".wav"` is returned unchanged (so its extension
is kept as is). -/
theorem C1_output_extension (sentence wav_file : String) (cfg : Config)
    (voicesResult : Except String (List String))
    (stream : List (Except String (List Nat)))
    (p : String) (err : Option String)
    (hres : (get_tts sentence wav_file cfg voicesResult stream).result
      = .ok (p, err)) :
    (wavExt <:+ wav_file.data → mp3Ext <:+ p.data)
    ∧ (¬ wavExt <:+: wav_file.data → p = wav_file) := by
  obtain ⟨hp, -⟩ :=
    get_tts_ok_shape sentence wav_file cfg voicesResult stream p err hres
  subst hp
  constructor
  · intro hw
    exact replaceWav_wav_suffix hw
  · intro hno
    show (⟨replaceWav wav_file.data⟩ : String) = wav_file
    rw [replaceWav_of_no_occurrence hno]

/-- C1, witness: instantiation at the suggested path `"out.wav"`. -/
theorem C1_witness : mp3Ext <:+ ("out.mp3" : String).data :=
  (C1_output_extension "hi" "out.wav" cfgDefault
      (.ok [TTSConfiguration.DEFAULT_VOICE_ID]) [.ok [1]] "out.mp3" none
      rfl).1 (by decide)

/-- C2, counterexample: the suggested path `"a.wav.wav"` ends in `".wav"`,
yet `get_tts` returns `"a.mp3.mp3"` and not `"a.wav.mp3"`: `str.replace`
rewrites every occurrence of `".wav"`, not only the trailing suffix, so the
stem is not preserved. -/
theorem C2_counterexample :
    (get_tts "hi" "a.wav.wav" cfgDefault
        (.ok [TTSConfiguration.DEFAULT_VOICE_ID]) [.ok [1]]).result
      = .ok ("a.mp3.mp3", none)
    ∧ ("a.mp3.mp3" : String) ≠ "a.wav.mp3" :=
  ⟨rfl, by decide⟩

/-- C2, amended: on every successful `get_tts` call with a suggested path
ending in `".wav"`, the returned path ends in `".mp3"`; and when `".wav"`
does not also occur inside the stem, only the trailing suffix is replaced:
the call on `stem ++ ".wav"` returns `stem ++ ".mp3"` (occurrences inside
the stem would be replaced too, as the counterexample shows). -/
theorem C2_stem_replacement (sentence : String) (cfg : Config)
    (voicesResult : Except String (List String))
    (stream : List (Except String (List Nat)))
    (p : String) (err : Option String) :
    (∀ wav_file : String,
      (get_tts sentence wav_file cfg voicesResult stream).result = .ok (p, err) →
      wavExt <:+ wav_file.data → mp3Ext <:+ p.data)
    ∧ (∀ stem : List Char, ¬ wavExt <:+: stem →
        (get_tts sentence ⟨stem ++ wavExt⟩ cfg voicesResult stream).result
          = .ok (p, err) →
        p = ⟨stem ++ mp3Ext⟩) := by
  constructor
  · intro wav_file hres hw
    obtain ⟨hp, -⟩ :=
      get_tts_ok_shape sentence wav_file cfg voicesResult stream p err hres
    subst hp
    exact replaceWav_wav_suffix hw
  · intro stem hno hres
    obtain ⟨hp, -⟩ :=
      get_tts_ok_shape sentence ⟨stem ++ wavExt⟩ cfg voicesResult stream p err hres
    subst hp
    show (⟨replaceWav (String.mk (stem ++ wavExt)).data⟩ : String) = ⟨stem ++ mp3Ext⟩
    rw [show (String.mk (stem ++ wavExt)).data = stem ++ wavExt from rfl,
      replaceWav_stem stem hno]

/-- C2, witness: instantiation at the stem `"b"`. -/
theorem C2_witness : ("b.mp3" : String) = ⟨['b'] ++ mp3Ext⟩ :=
  (C2_stem_replacement "hi" cfgDefault
      (.ok [TTSConfiguration.DEFAULT_VOICE_ID]) [.ok [1]] "b.mp3" none).2
    ['b'] (by decide) rfl

/-- C3: with no configured `api_key` and no environment variable, API-key
resolution (and hence plugin construction) fails with a configuration error;
a non-empty configured key is returned in preference to the environment, and
a non-empty environment key is returned when the config has none. -/
theorem C3_api_key_resolution :
    (∃ msg, (api_key_resolve none none).1 = .error msg)
    ∧ (∃ msg, plugin_init none none = .error msg)
    ∧ (∀ (k : String) (env_api_key : Option String), k ≠ "" →
        (api_key_resolve (some k) env_api_key).1 = .ok k)
    ∧ (∀ k : String, k ≠ "" → (api_key_resolve none (some k)).1 = .ok k) := by
  refine ⟨⟨_, rfl⟩, ⟨_, rfl⟩, ?_, ?_⟩
  · intro k env_api_key hk
    simp [api_key_resolve, hk]
  · intro k hk
    simp [api_key_resolve, hk]

/-- C3, witness: instantiation with a configured key, an environment key and
both sources, discharging the non-emptiness hypotheses. -/
theorem C3_witness :
    (api_key_resolve (some "configured-key") (some "env-key")).1
      = .ok "configured-key"
    ∧ (api_key_resolve none (some "env-key")).1 = .ok "env-key" :=
  ⟨C3_api_key_resolution.2.2.1 "configured-key" (some "env-key") (by decide),
   C3_api_key_resolution.2.2.2 "env-key" (by decide)⟩

/-- C4, counterexample: resolving `voice_id` issues a remote `listVoices`
call (for the debug log in the property body), refuting the claim that
resolving `voice_id` performs no remote call. -/
theorem C4_counterexample :
    (voice_id_resolve none (.ok [])).2 = [RemoteCall.listVoices]
    ∧ ([RemoteCall.listVoices] : List RemoteCall) ≠ [] :=
  ⟨rfl, by decide⟩

/-- C4, amended: resolving `api_key`, `model_id`, `use_streaming`,
`output_format` and `voice_settings` issues no remote call and is a pure
function of the configuration source; resolving `voice_id` issues exactly
one remote `listVoices` call, used only for logging: its response never
affects the returned value, which is the configured value when present and
non-empty and otherwise the fixed default identifier, with no validation. -/
theorem C4_resolver_effects (cfg_api_key env_api_key cfg_voice_id : Option String)
    (r r' : Except String (List String))
    (cfg_model_id cfg_output_format : Option String)
    (cfg_use_streaming : Option Bool)
    (st si sty : Option Rat) (bo : Option Bool) :
    (api_key_resolve cfg_api_key env_api_key).2 = []
    ∧ (model_id_resolve cfg_model_id).2 = []
    ∧ (use_streaming_resolve cfg_use_streaming).2 = []
    ∧ (output_format_resolve cfg_output_format).2 = []
    ∧ (voice_settings_resolve st si sty bo).2 = []
    ∧ (voice_id_resolve cfg_voice_id r).2 = [RemoteCall.listVoices]
    ∧ (voice_id_resolve cfg_voice_id r).1 = (voice_id_resolve cfg_voice_id r').1
    ∧ (∀ s : String, s ≠ "" → (voice_id_resolve (some s) r).1 = s)
    ∧ (voice_id_resolve none r).1 = TTSConfiguration.DEFAULT_VOICE_ID := by
  refine ⟨rfl, rfl, rfl, rfl, rfl, rfl, rfl, ?_, rfl⟩
  intro s hs
  simp [voice_id_resolve, hs]

/-- C4, witness: instantiation with a configured voice id and two different
remote responses. -/
theorem C4_witness :
    (voice_id_resolve (some "myvoice") (.ok [])).1 = "myvoice" :=
  (C4_resolver_effects none none (some "myvoice") (.ok []) (.error "down")
      none none none none none none none).2.2.2.2.2.2.2.1 "myvoice" (by decide)

/-- C5: `validate_lang` succeeds exactly when the primary subtag of the
configured locale (text before the first hyphen, lower-cased) belongs to the
fixed supported-language set, and otherwise raises a validation error; in
particular it succeeds for `"en-US"` and fails for `"xx-YY"`. -/
theorem C5_validate_lang_characterization :
    (∀ lang : String, primary_subtag lang ∈ available_languages →
        validate_lang lang = .ok ())
    ∧ (∀ lang : String, primary_subtag lang ∉ available_languages →
        ∃ msg, validate_lang lang = .error msg)
    ∧ validate_lang "en-US" = .ok ()
    ∧ (∃ msg, validate_lang "xx-YY" = .error msg) := by
  refine ⟨?_, ?_, rfl, ⟨_, rfl⟩⟩
  · intro lang h
    simp [validate_lang, h]
  · intro lang h
    exact ⟨"Language " ++ lang ++ " not supported", by simp [validate_lang, h]⟩

/-- C5, witness: instantiation at the locales `"pt-BR"` and `"qq"`. -/
theorem C5_witness :
    validate_lang "pt-BR" = .ok ()
    ∧ (∃ msg, validate_lang "qq" = .error msg) :=
  ⟨C5_validate_lang_characterization.1 "pt-BR" (by decide),
   C5_validate_lang_characterization.2.1 "qq" (by decide)⟩

/-- C6: `validate_voice` raises whenever the remote voice list is empty, and
whenever the resolved voice id is absent from the returned list; it can only
pass when the voice id is a member of the list. -/
theorem C6_validate_voice_failures :
    (∀ vid : String, ∃ msg, validate_voice (.ok []) vid = .error msg)
    ∧ (∀ (voice_ids : List String) (vid : String), vid ∉ voice_ids →
        ∃ msg, validate_voice (.ok voice_ids) vid = .error msg)
    ∧ (∀ (voice_ids : List String) (vid : String),
        validate_voice (.ok voice_ids) vid = .ok () → vid ∈ voice_ids) := by
  refine ⟨fun vid =>
      ⟨"Voice ID " ++ vid ++ " not found in available voices",
        by simp [validate_voice]⟩,
    fun voice_ids vid h =>
      ⟨"Voice ID " ++ vid ++ " not found in available voices",
        by simp [validate_voice, h]⟩, ?_⟩
  intro voice_ids vid h
  by_cases hm : vid ∈ voice_ids
  · exact hm
  · simp [validate_voice, hm] at h

/-- C6, witness: instantiation at an empty voice list and at a list missing
the resolved voice id. -/
theorem C6_witness :
    (∃ msg, validate_voice (.ok []) "JBFqnCBsd6RMkjVDRZzb" = .error msg)
    ∧ (∃ msg, validate_voice (.ok ["voiceA"]) "voiceB" = .error msg) :=
  ⟨C6_validate_voice_failures.1 "JBFqnCBsd6RMkjVDRZzb",
   C6_validate_voice_failures.2.1 ["voiceA"] "voiceB" (by decide)⟩

/-- C7: on a successful `get_tts` call the destination file contains exactly
the concatenation, in arrival order, of the non-empty chunks yielded by the
synthesis call, and the byte counter equals their total length; for the
end-to-end default-config case with suggested path `"out.wav"` the call
returns `"out.mp3"` and a file of nonzero size. -/
theorem C7_file_content (sentence wav_file : String) (cfg : Config)
    (voices : List String) (cs : List (List Nat))
    (hmem : (voice_id_resolve cfg.voice_id (.ok voices)).1 ∈ voices) :
    ((get_tts sentence wav_file cfg (.ok voices) (cs.map Except.ok)).file
        = some ((cs.filter (fun c => !c.isEmpty)).flatten)
      ∧ (get_tts sentence wav_file cfg (.ok voices) (cs.map Except.ok)).bytes_written
        = ((cs.filter (fun c => !c.isEmpty)).map List.length).sum
      ∧ (get_tts sentence wav_file cfg (.ok voices) (cs.map Except.ok)).result
        = .ok (⟨replaceWav wav_file.data⟩, none))
    ∧ ((get_tts "Hello world" "out.wav" cfgDefault
          (.ok [TTSConfiguration.DEFAULT_VOICE_ID])
          [.ok [72, 101], .ok [], .ok [108]]).result = .ok ("out.mp3", none)
      ∧ (get_tts "Hello world" "out.wav" cfgDefault
          (.ok [TTSConfiguration.DEFAULT_VOICE_ID])
          [.ok [72, 101], .ok [], .ok [108]]).file = some [72, 101, 108]
      ∧ 0 < [72, 101, 108].length) := by
  have hok : (writeChunks (cs.map Except.ok)).2.2 = none := by
    rw [writeChunks_map_ok]
  refine ⟨?_, rfl, rfl, by decide⟩
  rw [get_tts_success sentence wav_file cfg voices _ hmem hok,
    writeChunks_map_ok]
  exact ⟨rfl, rfl, rfl⟩

/-- C7, witness: instantiation with three chunks, one of them empty. -/
theorem C7_witness :
    ((get_tts "s" "a.wav" cfgDefault (.ok [TTSConfiguration.DEFAULT_VOICE_ID])
        ([[1], [], [2, 3]].map Except.ok)).file
      = some (([[1], [], [2, 3]].filter (fun c => !c.isEmpty)).flatten)
    ∧ (get_tts "s" "a.wav" cfgDefault (.ok [TTSConfiguration.DEFAULT_VOICE_ID])
        ([[1], [], [2, 3]].map Except.ok)).bytes_written
      = (([[1], [], [2, 3]].filter (fun c => !c.isEmpty)).map List.length).sum
    ∧ (get_tts "s" "a.wav" cfgDefault (.ok [TTSConfiguration.DEFAULT_VOICE_ID])
        ([[1], [], [2, 3]].map Except.ok)).result
      = .ok (⟨replaceWav "a.wav".data⟩, none)) :=
  (C7_file_content "s" "a.wav" cfgDefault [TTSConfiguration.DEFAULT_VOICE_ID]
    [[1], [], [2, 3]] (by decide)).1

/-- C8: `get_tts` returns the output path paired with a `none` error marker
on every success and never populates the error slot; a voice-list fetch
failure and a failure while iterating the synthesis stream are both
propagated to the caller unmodified as raised errors. -/
theorem C8_error_propagation (sentence wav_file : String) (cfg : Config)
    (voicesResult : Except String (List String))
    (stream : List (Except String (List Nat))) :
    (∀ p err, (get_tts sentence wav_file cfg voicesResult stream).result
        = .ok (p, err) → err = none)
    ∧ (∀ e, voicesResult = .error e →
        (get_tts sentence wav_file cfg voicesResult stream).result = .error e)
    ∧ (∀ (voices : List String) (cs : List (List Nat)) (e : String)
        (rest : List (Except String (List Nat))), voicesResult = .ok voices →
        (voice_id_resolve cfg.voice_id voicesResult).1 ∈ voices →
        stream = cs.map Except.ok ++ .error e :: rest →
        (get_tts sentence wav_file cfg voicesResult stream).result
          = .error e) := by
  refine ⟨?_, ?_, ?_⟩
  · intro p err hres
    exact (get_tts_ok_shape sentence wav_file cfg voicesResult stream
      p err hres).2
  · intro e he
    subst he
    rw [get_tts_fetch_error]
  · intro voices cs e rest hv hmem hs
    subst hv
    subst hs
    have herr : (writeChunks (cs.map Except.ok ++ .error e :: rest)).2.2
        = some e := by
      rw [writeChunks_with_error]
    rw [get_tts_stream_error _ _ _ _ _ e hmem herr]

/-- C8, witness: a fetch failure and a mid-stream failure, both propagated
unmodified. -/
theorem C8_witness :
    ((get_tts "s" "f.wav" cfgDefault (.error "boom") []).result
      = .error "boom")
    ∧ (get_tts "s" "f.wav" cfgDefault (.ok [TTSConfiguration.DEFAULT_VOICE_ID])
        ([[9]].map Except.ok ++ .error "netfail" :: [])).result
      = .error "netfail" :=
  ⟨(C8_error_propagation "s" "f.wav" cfgDefault (.error "boom") []).2.1
      "boom" rfl,
   (C8_error_propagation "s" "f.wav" cfgDefault
      (.ok [TTSConfiguration.DEFAULT_VOICE_ID])
      ([[9]].map Except.ok ++ .error "netfail" :: [])).2.2
      [TTSConfiguration.DEFAULT_VOICE_ID] [[9]] "netfail" [] rfl (by decide) rfl⟩

/-- C9, counterexample: with `use_streaming` resolved to `false` but a
configured-default voice id absent from the account's voice list, the
`get_tts` invocation issues zero non-streaming synthesis calls, refuting the
claim that every such invocation issues exactly one. -/
theorem C9_counterexample :
    (use_streaming_resolve cfgDefault.use_streaming).1 = false
    ∧ (get_tts "hi" "x.wav" cfgDefault (.ok ["otherVoice"])
        [.ok [1]]).trace.count RemoteCall.convert = 0
    ∧ (0 : Nat) ≠ 1 :=
  ⟨rfl, rfl, by decide⟩

/-- C9, amended: for every `get_tts` invocation that passes voice validation,
when `use_streaming` resolves to `false` exactly one non-streaming synthesis
call and no streaming call is issued, and symmetrically when it resolves to
`true`; an invocation that fails voice validation issues no synthesis call
of either kind. -/
theorem C9_synthesis_call_counts (sentence wav_file : String) (cfg : Config)
    (voices : List String) (stream : List (Except String (List Nat)))
    (hmem : (voice_id_resolve cfg.voice_id (.ok voices)).1 ∈ voices) :
    ((use_streaming_resolve cfg.use_streaming).1 = false →
      (get_tts sentence wav_file cfg (.ok voices) stream).trace.count
          RemoteCall.convert = 1
      ∧ (get_tts sentence wav_file cfg (.ok voices) stream).trace.count
          RemoteCall.convertStream = 0)
    ∧ ((use_streaming_resolve cfg.use_streaming).1 = true →
      (get_tts sentence wav_file cfg (.ok voices) stream).trace.count
          RemoteCall.convertStream = 1
      ∧ (get_tts sentence wav_file cfg (.ok voices) stream).trace.count
          RemoteCall.convert = 0) := by
  cases herr : (writeChunks stream).2.2 with
  | none =>
    rw [get_tts_success sentence wav_file cfg voices stream hmem herr]
    exact ⟨fun hb => by rw [hb]; exact ⟨rfl, rfl⟩,
      fun hb => by rw [hb]; exact ⟨rfl, rfl⟩⟩
  | some e =>
    rw [get_tts_stream_error sentence wav_file cfg voices stream e hmem herr]
    exact ⟨fun hb => by rw [hb]; exact ⟨rfl, rfl⟩,
      fun hb => by rw [hb]; exact ⟨rfl, rfl⟩⟩

/-- C9, witness: default configuration (streaming off) with a valid voice. -/
theorem C9_witness :
    (get_tts "s" "x.wav" cfgDefault (.ok [TTSConfiguration.DEFAULT_VOICE_ID])
        [.ok [1]]).trace.count RemoteCall.convert = 1
    ∧ (get_tts "s" "x.wav" cfgDefault (.ok [TTSConfiguration.DEFAULT_VOICE_ID])
        [.ok [1]]).trace.count RemoteCall.convertStream = 0 :=
  (C9_synthesis_call_counts "s" "x.wav" cfgDefault
    [TTSConfiguration.DEFAULT_VOICE_ID] [.ok [1]] (by decide)).1 rfl

/-- C10: every `get_tts` invocation fetches the remote voice list before any
synthesis call (the very first remote call is `listVoices`); when the
resolved voice id is absent from the fetched list, an error is raised, no
synthesis call of either kind is issued, and no output file is created. -/
theorem C10_voice_validation_gate (sentence wav_file : String) (cfg : Config)
    (voices : List String) (stream : List (Except String (List Nat))) :
    (get_tts sentence wav_file cfg (.ok voices) stream).trace.head?
      = some RemoteCall.listVoices
    ∧ ((voice_id_resolve cfg.voice_id (.ok voices)).1 ∉ voices →
        (∃ msg, (get_tts sentence wav_file cfg (.ok voices) stream).result
          = .error msg)
        ∧ (get_tts sentence wav_file cfg (.ok voices) stream).file = none
        ∧ (get_tts sentence wav_file cfg (.ok voices) stream).bytes_written = 0
        ∧ (get_tts sentence wav_file cfg (.ok voices) stream).trace.count
            RemoteCall.convert = 0
        ∧ (get_tts sentence wav_file cfg (.ok voices) stream).trace.count
            RemoteCall.convertStream = 0) := by
  constructor
  · by_cases hmem : (voice_id_resolve cfg.voice_id (.ok voices)).1 ∈ voices
    · cases herr : (writeChunks stream).2.2 with
      | none =>
        rw [get_tts_success sentence wav_file cfg voices stream hmem herr]
        rfl
      | some e =>
        rw [get_tts_stream_error sentence wav_file cfg voices stream e hmem herr]
        rfl
    · rw [get_tts_invalid_voice sentence wav_file cfg voices stream hmem]
      rfl
  · intro hmem
    rw [get_tts_invalid_voice sentence wav_file cfg voices stream hmem]
    exact ⟨⟨_, rfl⟩, rfl, rfl, rfl, rfl⟩

/-- C10, witness: a configured voice id absent from the account list. -/
theorem C10_witness :
    (∃ msg, (get_tts "s" "x.wav" cfgBadVoice (.ok ["goodvoice"])
        [.ok [1]]).result = .error msg)
    ∧ (get_tts "s" "x.wav" cfgBadVoice (.ok ["goodvoice"]) [.ok [1]]).file = none
    ∧ (get_tts "s" "x.wav" cfgBadVoice (.ok ["goodvoice"])
        [.ok [1]]).bytes_written = 0
    ∧ (get_tts "s" "x.wav" cfgBadVoice (.ok ["goodvoice"])
        [.ok [1]]).trace.count RemoteCall.convert = 0
    ∧ (get_tts "s" "x.wav" cfgBadVoice (.ok ["goodvoice"])
        [.ok [1]]).trace.count RemoteCall.convertStream = 0 :=
  (C10_voice_validation_gate "s" "x.wav" cfgBadVoice ["goodvoice"]
    [.ok [1]]).2 (by decide)
